import Mathlib

/-!
# Verification of `instance_me/scheduler_agent.py`

A shallow embedding of the scheduling & execution engine of the repository:
schedule-due evaluation (`TaskScheduler.evaluate_task`), the todo scanner
(`run_todo_scan`), the action dispatchers (`run_shell`,
`run_xingyun_tag_check`, `run_changan_workorder_check`, `create_todo`,
`run_task`) and the per-tick driver (`TaskScheduler.run_cycle`).

Modelling conventions:
* Python `datetime` values are civil date fields plus time-of-day in
  microseconds plus an optional fixed UTC offset in minutes (`none` models an
  offset-naive value).  All arithmetic is exact integer arithmetic, as in
  CPython.
* JSON records are schema-typed structures whose fields are `Option`-valued
  (`none` models an absent key).
* External effects (environment variables, filesystem existence checks,
  subprocesses) are oracles passed as function arguments; file-backed JSON
  documents are explicit values threaded through the functions.
* Raised exceptions are modelled by `Except String`, carrying the message.
-/

namespace SchedulerAgent

/-! ## Civil calendar arithmetic (model of the `datetime` library's calendar) -/

def isLeapYear (y : Nat) : Bool :=
  (y % 4 == 0 && y % 100 != 0) || y % 400 == 0

def daysInMonth (y m : Nat) : Nat :=
  if m = 2 then (if isLeapYear y then 29 else 28)
  else if m = 4 ∨ m = 6 ∨ m = 9 ∨ m = 11 then 30
  else 31

/-- Days since 0000-03-01 of the civil date `y-m-d` (proleptic Gregorian,
valid for `1 ≤ y`, `1 ≤ m ≤ 12`); the standard era/day-of-era computation. -/
def daysFromCivil (y m d : Nat) : Nat :=
  let yy := if m ≤ 2 then y - 1 else y
  let era := yy / 400
  let yoe := yy % 400
  let mp := if m ≤ 2 then m + 9 else m - 3
  let doy := (153 * mp + 2) / 5 + (d - 1)
  let doe := yoe * 365 + yoe / 4 - yoe / 100 + doy
  era * 146097 + doe

/-- Inverse of `daysFromCivil`: civil date `(y, m, d)` of a day count. -/
def civilFromDays (z : Nat) : Nat × Nat × Nat :=
  let era := z / 146097
  let doe := z % 146097
  let yoe := (doe + doe / 36524 - (doe / 1460 + doe / 146096)) / 365
  let y := yoe + era * 400
  let doy := doe - (365 * yoe + yoe / 4 - yoe / 100)
  let mp := (5 * doy + 2) / 153
  let d := doy - (153 * mp + 2) / 5 + 1
  let m := if mp < 10 then mp + 3 else mp - 9
  (if m ≤ 2 then y + 1 else y, m, d)

def usPerDay : Nat := 86400000000
def usPerMin : Nat := 60000000

/-- A Python `datetime` value: civil date fields, time of day in microseconds,
and an optional fixed UTC offset in minutes (`none` = offset-naive). -/
structure PyDateTime where
  year : Nat
  month : Nat
  dayOfMonth : Nat
  usod : Nat
  tzoff : Option Int
deriving Repr, DecidableEq

def PyDateTime.dayIndex (dt : PyDateTime) : Nat :=
  daysFromCivil dt.year dt.month dt.dayOfMonth

/-- Python `datetime.weekday()`: Monday = 0 … Sunday = 6. -/
def PyDateTime.weekday (dt : PyDateTime) : Nat := (dt.dayIndex + 2) % 7

/-- Python `datetime.date()` as a civil triple. -/
def PyDateTime.date (dt : PyDateTime) : Nat × Nat × Nat :=
  (dt.year, dt.month, dt.dayOfMonth)

/-- The absolute instant in microseconds (UTC-normalised when aware); the
quantity CPython compares and subtracts for aware datetimes, and the naive
wall-clock value for naive ones. -/
def PyDateTime.absUs (dt : PyDateTime) : Int :=
  ((dt.dayIndex * usPerDay + dt.usod : Nat) : Int) - (dt.tzoff.getD 0) * (usPerMin : Int)

/-- Subtraction `a - b` on datetimes, in microseconds.  `none` models the `TypeError`
CPython raises when exactly one operand is aware. -/
def pySub (a b : PyDateTime) : Option Int :=
  if a.tzoff.isSome = b.tzoff.isSome then some (a.absUs - b.absUs) else none

/-- Comparison `a > b` on two datetimes that share awareness (the only way the scheduler
compares them: `due_at` always carries `now`'s tzinfo). -/
def pyGt (a b : PyDateTime) : Bool := a.absUs > b.absUs

/-! ## Digit scanning shared by the parsers -/

def digitVal (c : Char) : Nat := c.toNat - '0'.toNat

/-- Take at most `k` leading decimal digits. -/
def takeDigits : Nat → List Char → List Char × List Char
  | 0, cs => ([], cs)
  | _ + 1, [] => ([], [])
  | k + 1, c :: cs =>
    if c.isDigit then
      let (ds, rest) := takeDigits k cs
      (c :: ds, rest)
    else ([], c :: cs)

def digitsToNat (ds : List Char) : Nat :=
  ds.foldl (fun a c => a * 10 + digitVal c) 0

/-- A numeric field of exactly `w` digits (as in `fromisoformat` and the
`%Y` directive of `strptime`). -/
def exactDigits (w : Nat) (cs : List Char) : Option (Nat × List Char) :=
  let (ds, rest) := takeDigits w cs
  if ds.length = w then some (digitsToNat ds, rest) else none

/-- A numeric field of one or two digits, greedy (net behaviour of the
`%m %d %H %M %S` directives of `strptime`: the regex alternations combined
with the later range checks of the `datetime` constructor accept exactly the
1-2 digit runs whose value is in range and which are followed by the expected
literal). -/
def greedy2 (cs : List Char) : Option (Nat × List Char) :=
  match takeDigits 2 cs with
  | ([], _) => none
  | (ds, rest) => some (digitsToNat ds, rest)

/-- A literal character. -/
def lit (c : Char) : List Char → Option (List Char)
  | x :: xs => if x = c then some xs else none
  | [] => none

def validDate (y m d : Nat) : Prop :=
  1 ≤ y ∧ y ≤ 9999 ∧ 1 ≤ m ∧ m ≤ 12 ∧ 1 ≤ d ∧ d ≤ daysInMonth y m

instance (y m d : Nat) : Decidable (validDate y m d) := by
  unfold validDate; infer_instance

/-! ## `strptime` with the two fixed formats of `parse_datetime` -/

/-- Model of `datetime.strptime(value, "%Y-%m-%d %H:%M")` (with `":%S"` when
`withSec` is set) followed by the range validation the `datetime` constructor
performs.  Produces an offset-naive value, as `strptime` does. -/
def parseStrptime (withSec : Bool) (s : String) : Option PyDateTime := do
  let cs := s.toList
  let (y, cs) ← exactDigits 4 cs
  let cs ← lit '-' cs
  let (mo, cs) ← greedy2 cs
  let cs ← lit '-' cs
  let (d, cs) ← greedy2 cs
  let cs ← lit ' ' cs
  let (h, cs) ← greedy2 cs
  let cs ← lit ':' cs
  let (mi, cs) ← greedy2 cs
  let (sec, cs) ←
    if withSec then do
      let cs ← lit ':' cs
      greedy2 cs
    else
      pure (0, cs)
  if cs.isEmpty ∧ validDate y mo d ∧ h ≤ 23 ∧ mi ≤ 59 ∧ sec ≤ 59 then
    pure { year := y, month := mo, dayOfMonth := d,
           usod := ((h * 60 + mi) * 60 + sec) * 1000000, tzoff := none }
  else
    none

/-! ## `datetime.fromisoformat` -/

def pow10 : Nat → Nat
  | 0 => 1
  | n + 1 => 10 * pow10 n

def takeAllDigits (cs : List Char) : List Char × List Char :=
  (cs.takeWhile Char.isDigit, cs.dropWhile Char.isDigit)

/-- Optional fractional-seconds part: `'.'` followed by at least one digit;
digits beyond the sixth are truncated. -/
def parseIsoFrac : List Char → Option (Nat × List Char)
  | '.' :: cs =>
    let (ds, rest) := takeAllDigits cs
    if ds.length = 0 then none
    else
      let ds6 := ds.take 6
      some (digitsToNat ds6 * pow10 (6 - ds6.length), rest)
  | cs => some (0, cs)

/-- Optional UTC-offset suffix: empty (naive), `Z`, or `±HH:MM`; the result
is the offset in minutes. -/
def parseIsoTz : List Char → Option (Option Int × List Char)
  | [] => some (none, [])
  | 'Z' :: cs => some (some 0, cs)
  | c :: cs =>
    if c = '+' ∨ c = '-' then do
      let (oh, cs) ← exactDigits 2 cs
      let cs ← lit ':' cs
      let (om, cs) ← exactDigits 2 cs
      if oh ≤ 23 ∧ om ≤ 59 then
        some (some (if c = '-' then -((oh * 60 + om : Nat) : Int) else ((oh * 60 + om : Nat) : Int)), cs)
      else none
    else some (none, c :: cs)

/-- Model of `datetime.fromisoformat` on the
`YYYY-MM-DD[(T or space)HH:MM[:SS[.frac]]][offset]` family — the family that
`datetime.isoformat` emits and that hand-maintained state files use. -/
def fromisoformat (s : String) : Option PyDateTime := do
  let cs := s.toList
  let (y, cs) ← exactDigits 4 cs
  let cs ← lit '-' cs
  let (mo, cs) ← exactDigits 2 cs
  let cs ← lit '-' cs
  let (d, cs) ← exactDigits 2 cs
  if ¬ validDate y mo d then none
  else
    match cs with
    | [] => pure { year := y, month := mo, dayOfMonth := d, usod := 0, tzoff := none }
    | c :: cs => do
      if c ≠ 'T' ∧ c ≠ ' ' then none
      else do
        let (h, cs) ← exactDigits 2 cs
        let cs ← lit ':' cs
        let (mi, cs) ← exactDigits 2 cs
        let (sec, frac, cs) ←
          match cs with
          | ':' :: cs => do
            let (sec, cs) ← exactDigits 2 cs
            let (fr, cs) ← parseIsoFrac cs
            pure (sec, fr, cs)
          | cs => pure (0, 0, cs)
        let (tz, cs) ← parseIsoTz cs
        if cs.isEmpty ∧ h ≤ 23 ∧ mi ≤ 59 ∧ sec ≤ 59 then
          pure { year := y, month := mo, dayOfMonth := d,
                 usod := ((h * 60 + mi) * 60 + sec) * 1000000 + frac, tzoff := tz }
        else none

/-! ## Printers: `isoformat`, `strftime`, `str(time)` -/

/-- Zero-pad a number to `w` digits. -/
def pad (w n : Nat) : String :=
  let s := toString n
  if s.length < w then String.mk (List.replicate (w - s.length) '0') ++ s else s

/-- Model of `datetime.isoformat()`: `YYYY-MM-DDTHH:MM:SS[.ffffff][±HH:MM]`. -/
def isoformat (dt : PyDateTime) : String :=
  let usec := dt.usod % 1000000
  let tsec := dt.usod / 1000000
  let frac := if usec = 0 then "" else "." ++ pad 6 usec
  let tzs :=
    match dt.tzoff with
    | none => ""
    | some off =>
      (if off < 0 then "-" else "+") ++ pad 2 (off.natAbs / 60) ++ ":" ++ pad 2 (off.natAbs % 60)
  pad 4 dt.year ++ "-" ++ pad 2 dt.month ++ "-" ++ pad 2 dt.dayOfMonth ++ "T" ++
    pad 2 (tsec / 3600) ++ ":" ++ pad 2 (tsec % 3600 / 60) ++ ":" ++ pad 2 (tsec % 60) ++
    frac ++ tzs

/-- Model of `date.isoformat()`: `YYYY-MM-DD`. -/
def dateIso (dt : PyDateTime) : String :=
  pad 4 dt.year ++ "-" ++ pad 2 dt.month ++ "-" ++ pad 2 dt.dayOfMonth

/-- Model of `datetime.strftime("%Y-%m-%d %H:%M")`. -/
def strftimeYmdHM (dt : PyDateTime) : String :=
  let tsec := dt.usod / 1000000
  pad 4 dt.year ++ "-" ++ pad 2 dt.month ++ "-" ++ pad 2 dt.dayOfMonth ++ " " ++
    pad 2 (tsec / 3600) ++ ":" ++ pad 2 (tsec % 3600 / 60)

/-- Model of `datetime.strftime("%Y%m%d%H%M%S")`. -/
def strftimeCompact (dt : PyDateTime) : String :=
  let tsec := dt.usod / 1000000
  pad 4 dt.year ++ pad 2 dt.month ++ pad 2 dt.dayOfMonth ++
    pad 2 (tsec / 3600) ++ pad 2 (tsec % 3600 / 60) ++ pad 2 (tsec % 60)

/-- Rendering of an `Optional[datetime.time]` (time-of-day in μs) by an f-string. -/
def timeOfDayStr (t : Option Nat) : String :=
  match t with
  | none => "None"
  | some us =>
    let tsec := us / 1000000
    let usec := us % 1000000
    pad 2 (tsec / 3600) ++ ":" ++ pad 2 (tsec % 3600 / 60) ++ ":" ++ pad 2 (tsec % 60) ++
      (if usec = 0 then "" else "." ++ pad 6 usec)

/-! ## Python value helpers -/

/-- Truthiness of an optional string (`none` = absent / JSON null). -/
def strTruthy : Option String → Bool
  | none => false
  | some s => s ≠ ""

/-- Python `a or b` on optional strings. -/
def pyOr (a b : Option String) : Option String :=
  if strTruthy a then a else b

/-- Rendering of an optional string by an f-string (`None` prints as `"None"`). -/
def pyStrOf : Option String → String
  | none => "None"
  | some s => s

/-- A JSON scalar found in a field the code passes to `int(...)`. -/
inductive PyVal where
  | vInt (i : Int)
  | vStr (s : String)
  | vBool (b : Bool)
  | vNull
deriving Repr, DecidableEq

/-- Python `int("...")`: optional surrounding whitespace, optional sign,
then decimal digits (digit-group underscores are not modelled). -/
def parsePyInt (s : String) : Option Int :=
  let cs := ((s.toList.dropWhile Char.isWhitespace).reverse.dropWhile Char.isWhitespace).reverse
  match cs with
  | '+' :: ds => if ds ≠ [] ∧ ds.all Char.isDigit then some (digitsToNat ds) else none
  | '-' :: ds => if ds ≠ [] ∧ ds.all Char.isDigit then some (-(digitsToNat ds : Int)) else none
  | ds => if ds ≠ [] ∧ ds.all Char.isDigit then some (digitsToNat ds) else none

/-- Python `int(x)` on a scalar; `none` models the raised
`TypeError`/`ValueError`. -/
def pyToInt : PyVal → Option Int
  | .vInt i => some i
  | .vBool b => some (if b then 1 else 0)
  | .vNull => none
  | .vStr s => parsePyInt s

/-- Python `int(x)` where `x` came from `dict.get` (`none` = absent key = `None`). -/
def pyToIntOpt (v : Option PyVal) : Option Int :=
  pyToInt (v.getD .vNull)

/-! ## Data model (schema-typed views of the JSON records)

Fields are `Option`-valued; `none` models an absent key (and, where the code
treats `null` the same way through falsiness or a failed string comparison,
also JSON `null`). -/

/-- An `action` object as embedded in tasks and todo items. -/
structure ActionObj where
  type : Option String := none
  message : Option String := none
  command : Option String := none
  workdir : Option String := none
  args : Option (List String) := none
  repo_path : Option String := none
  test_mode : Bool := false
deriving Repr, DecidableEq

/-- The `todo` template embedded in a `todo_create` task.
`idPrefix` models the JSON key `id_prefix`. -/
structure TodoTemplate where
  title : Option String := none
  action : Option ActionObj := none
  due_at : Option String := none
  due_offset_minutes : Option PyVal := none
  idPrefix : Option String := none
deriving Repr, DecidableEq

/-- A `schedule` object. -/
structure Schedule where
  kind : Option String := none
  minutes : Option PyVal := none
  time : Option String := none
  day_of_week : Option String := none
deriving Repr, DecidableEq

/-- A recurring task record from `agent_tasks.json`. -/
structure Task where
  id : Option String := none
  type : Option String := none
  enabled : Bool := true
  schedule : Option Schedule := none
  todo : Option TodoTemplate := none
  repo_path : Option String := none
  test_mode : Bool := false
deriving Repr, DecidableEq

/-- A todo record from `todos.json`. -/
structure TodoItem where
  id : Option String := none
  title : Option String := none
  due_at : Option String := none
  status : Option String := none
  action : Option ActionObj := none
  done_at : Option String := none
  result : Option String := none
  last_error : Option String := none
  last_attempt_at : Option String := none
deriving Repr, DecidableEq

/-- The run-state mapping (task id → ISO timestamp of the last run), as an
insertion-ordered association list, first binding wins on lookup. -/
abbrev RunState := List (String × String)

/-- Lookup `state.get(task_id)` where `task_id` may be `None` (JSON object keys are
strings, so a `None` id never matches). -/
def stateGet (state : RunState) (id : Option String) : Option String :=
  match id with
  | none => none
  | some k => state.lookup k

/-- Assignment `state[k] = v`: overwrite in place if present, else append. -/
def stateSet (state : RunState) (k v : String) : RunState :=
  if state.any (fun p => p.1 = k) then
    state.map (fun p => if p.1 = k then (k, v) else p)
  else state ++ [(k, v)]

/-! ## Persistence model

A stored JSON document is absent, present-but-unparsable, or a parsed value;
for the two array-shaped stores the only shape the code distinguishes is
"a list" versus "valid JSON that is not a list". -/

inductive StoredDoc (α : Type) where
  | absent
  | badJson
  | notArr
  | arr (items : List α)
deriving Repr, DecidableEq

/-- The value `load_json(path, default)` hands to its caller. -/
inductive Loaded (α : Type) where
  | arr (items : List α)
  | notArr
deriving Repr, DecidableEq

/-- Model of `load_json`: default when the file is absent, default (after logging) when
the text fails to parse, the parsed value otherwise. -/
def load_json {α : Type} (doc : StoredDoc α) (default : Loaded α) : Loaded α :=
  match doc with
  | .absent => default
  | .badJson => default
  | .notArr => .notArr
  | .arr items => .arr items

/-- The state document (an object, not an array). -/
inductive StateDoc where
  | absent
  | badJson
  | notDict
  | dict (m : RunState)
deriving Repr, DecidableEq

/-- Model of `TaskScheduler.load_state`: empty dict for an absent/unparsable document,
empty dict (no log) when the value is not a dict. -/
def load_state : StateDoc → RunState
  | .dict m => m
  | _ => []

/-- Model of `TaskScheduler.load_tasks`: empty list when absent/unparsable, empty list
(after logging) when the value is not a list. -/
def load_tasks (doc : StoredDoc Task) : List Task :=
  match load_json doc (.arr []) with
  | .arr tasks => tasks
  | .notArr => []

/-! ## `parse_time`, `parse_datetime`, `last_run_date` -/

/-- Model of `parse_time`: `None`/empty is `None`; otherwise `strptime "%H:%M"`, i.e.
one-or-two-digit greedy hour and minute fields, full match, hour ≤ 23,
minute ≤ 59.  The result is the time of day in microseconds. -/
def parse_time (value : Option String) : Option Nat :=
  match value with
  | none => none
  | some s =>
    if s = "" then none
    else
      match (do
        let (h, cs) ← greedy2 s.toList
        let cs ← lit ':' cs
        let (mi, cs) ← greedy2 cs
        if cs.isEmpty ∧ h ≤ 23 ∧ mi ≤ 59 then some ((h * 60 + mi) * 60000000) else none) with
      | some t => some t
      | none => none

/-- Model of `parse_datetime`: `None`/empty is `None`; try `"%Y-%m-%d %H:%M"` then
`"%Y-%m-%d %H:%M:%S"`, and stamp the scheduler's tzinfo on the result
(`.replace(tzinfo=tz)`). -/
def parse_datetime (value : Option String) (tz : Option Int) : Option PyDateTime :=
  match value with
  | none => none
  | some s =>
    if s = "" then none
    else
      match parseStrptime false s with
      | some dt => some { dt with tzoff := tz }
      | none =>
        match parseStrptime true s with
        | some dt => some { dt with tzoff := tz }
        | none => none

/-- Model of `last_run_date`: `None`/empty is `None`; otherwise
`datetime.fromisoformat(last_run).date()`, `None` on `ValueError`. -/
def last_run_date (last_run : Option String) : Option (Nat × Nat × Nat) :=
  match last_run with
  | none => none
  | some s =>
    if s = "" then none
    else
      match fromisoformat s with
      | some dt => some dt.date
      | none => none

/-! ## `TaskScheduler.evaluate_task` -/

def WEEKDAY_MAP : List (String × Nat) :=
  [("mon", 0), ("tue", 1), ("wed", 2), ("thu", 3), ("fri", 4), ("sat", 5), ("sun", 6)]

/-- Model of `timedelta(minutes=m)`: the value in microseconds, or `none` for
the `OverflowError` CPython raises at construction when the normalized day
count (floor division by 1440 minutes/day) leaves ±999999999 days.
(For extreme magnitudes CPython raises the same `OverflowError` from an
internal C-int conversion with a different message; the class of the
exception — what the `except ValueError` fails to catch — is identical.) -/
def timedeltaMinutes (m : Int) : Option Int :=
  if -999999999 ≤ m.fdiv 1440 ∧ m.fdiv 1440 ≤ 999999999 then
    some (m * (usPerMin : Int))
  else none

/-- Model of `TaskScheduler.evaluate_task(task, now, state)`.

Returns `(should_run, reason, run_time)`; `Except.error` models the two
uncaught exceptions the body can raise, both on the `interval` branch's line
`now - last_run_dt < timedelta(minutes=minutes)` where only `ValueError` is
caught: subtracting an offset-naive parsed `last_run` from an aware `now`
(or vice versa) raises `TypeError`, and constructing the `timedelta` raises
`OverflowError` when the minutes exceed its ±999999999-day bound.  CPython
evaluates the subtraction (left operand) before the `timedelta` (right
operand), so the `TypeError` fires first. -/
def evaluate_task (task : Task) (now : PyDateTime) (state : RunState) :
    Except String (Bool × String × Option Nat) :=
  let schedule := task.schedule.getD {}
  let kind := schedule.kind
  if ¬ strTruthy kind then .ok (false, "missing schedule", none)
  else
    let last_run_at := stateGet state task.id
    if kind = some "interval" then
      match pyToIntOpt schedule.minutes with
      | none => .ok (false, "missing interval", none)
      | some minutes =>
        if strTruthy last_run_at then
          match fromisoformat (last_run_at.getD "") with
          | some last_run_dt =>
            match pySub now last_run_dt with
            | none => .error "can't subtract offset-naive and offset-aware datetimes"
            | some diff =>
              match timedeltaMinutes minutes with
              | none =>
                .error ("days=" ++ toString (minutes.fdiv 1440) ++
                        "; must have magnitude <= 999999999")
              | some td =>
                if diff < td then .ok (false, "interval not due yet", none)
                else .ok (true, "interval due", none)
          | none => .ok (true, "interval due", none)
        else .ok (true, "interval due", none)
    else
      match parse_time schedule.time with
      | none => .ok (false, "missing schedule time", none)
      | some run_time =>
        if last_run_date last_run_at = some now.date then
          .ok (false, "already ran today", some run_time)
        else if kind = some "daily" then
          .ok (decide (run_time ≤ now.usod), "not due yet", some run_time)
        else if kind = some "weekly" then
          let day_of_week := (schedule.day_of_week.getD "").toLower
          match WEEKDAY_MAP.lookup day_of_week with
          | none => .ok (false, "invalid schedule", some run_time)
          | some target_day =>
            .ok (decide (now.weekday = target_day ∧ run_time ≤ now.usod),
                 "not due yet", some run_time)
        else .ok (false, "unsupported schedule", some run_time)

/-! ## External-effect oracles and `run_shell` -/

/-- A subprocess invocation: either a shell string (`shell=True`) or an argv
list (`shell=False`). -/
inductive ShellCmd where
  | strCmd (s : String)
  | argv (l : List String)
deriving Repr, DecidableEq

structure ShellResult where
  returncode : Int
  stdout : String
  stderr : String
deriving Repr, DecidableEq

/-- Outcome of `subprocess.run(cmd, cwd=workdir, ...)`, supplied by the
environment. -/
abbrev Sh := ShellCmd → Option String → ShellResult

/-- Oracle for `os.getenv`. -/
abbrev Env := String → Option String

/-- Oracle for `Path(...).exists()`. -/
abbrev Fs := String → Bool

/-- Model of `run_shell(command, workdir, args)`: argv mode when `args` is a non-empty
list (truthy), shell-string mode otherwise; raises `RuntimeError` on a
non-zero exit code, else returns stripped stdout or a fixed fallback. -/
def run_shell (sh : Sh) (command : String) (workdir : Option String)
    (args : Option (List String)) : Except String String :=
  let cmd : ShellCmd :=
    match args with
    | some (a :: rest) => .argv (command :: a :: rest)
    | _ => .strCmd command
  let result := sh cmd workdir
  let output := result.stdout.trim
  let error := result.stderr.trim
  if result.returncode ≠ 0 then
    .error ("Command failed (" ++ toString result.returncode ++ "): " ++
            (if error ≠ "" then error else output))
  else .ok (if output ≠ "" then output else "Command finished without output.")

/-! ## The two named checks -/

/-- The `repo_path`/`test_mode` fields of whichever dict (task or action) is
passed as `config` to the named checks. -/
structure CheckCfg where
  repo_path : Option String := none
  test_mode : Bool := false
deriving Repr, DecidableEq

def ActionObj.checkCfg (a : ActionObj) : CheckCfg :=
  { repo_path := a.repo_path, test_mode := a.test_mode }

def Task.checkCfg (t : Task) : CheckCfg :=
  { repo_path := t.repo_path, test_mode := t.test_mode }

/-- Model of `run_xingyun_tag_check(config)`: resolve the repo path from the config's
own field `or` the environment variable, fail fast when that is falsy, check
three filesystem artifacts, then invoke the script
(`run_shell(args[0], workdir=str(repo), args=args[1:])`). -/
def run_xingyun_tag_check (env : Env) (fs : Fs) (sh : Sh) (config : CheckCfg) :
    Except String String :=
  let repo_path := pyOr config.repo_path (env "XINGYUN_REPO_PATH")
  if ¬ strTruthy repo_path then .error "Missing XINGYUN_REPO_PATH for Xingyun tag check."
  else
    let repo := repo_path.getD ""
    let script_path := repo ++ "/scripts/run-req-card-tag.sh"
    if ¬ fs script_path then .error ("Missing script: " ++ script_path)
    else
      let required_dir := repo ++ "/src/main/java/com/jd/gyl/webmagic/datasource/xingyun/requirementmanage"
      if ¬ fs (required_dir ++ "/login.properties") then
        .error "Missing login.properties under requirementmanage."
      else if ¬ fs (required_dir ++ "/public_key.pem") then
        .error "Missing public_key.pem under requirementmanage."
      else
        run_shell sh script_path (some repo)
          (some (if config.test_mode then ["test"] else []))

/-- Model of `run_changan_workorder_check(config)`: resolve the repo path from the
config's own field `or` the environment variable, fail fast when falsy, check
the repo directory exists, then `run_shell("go", workdir, args)`. -/
def run_changan_workorder_check (env : Env) (fs : Fs) (sh : Sh) (config : CheckCfg) :
    Except String String :=
  let repo_path := pyOr config.repo_path (env "CHANGAN_REPO_PATH")
  if ¬ strTruthy repo_path then .error "Missing CHANGAN_REPO_PATH for Changan work order check."
  else
    let repo := repo_path.getD ""
    if ¬ fs repo then .error ("Changan repo not found: " ++ repo)
    else
      run_shell sh "go" (some repo)
        (some (["run", "./cmd/changan-workorder-check"] ++
               if config.test_mode then ["test"] else []))

/-- Model of `todo/guards.py::_resolve_repo_path_source` — the three-level resolution
(the `repo_path` argument, then the environment variable, then the
`config.json` default) that the conversational front end uses when it
validates a new todo; `envValue` stands for `os.getenv(env_name)` and
`configValue` for `get_repo_path_from_config(action_type)`. -/
def resolve_repo_path_source (repoPath envValue configValue : Option String) :
    Option String :=
  if strTruthy repoPath then repoPath
  else if strTruthy envValue then envValue
  else if strTruthy configValue then configValue
  else none

/-! ## The todo scanner -/

/-- One action dispatch inside `run_todo_scan`'s loop (the body of its `try`):
the result or the caught exception's message, plus log lines written during
the dispatch itself (the default note action logs `TODO: ...`). -/
def dispatchTodoAction (env : Env) (fs : Fs) (sh : Sh) (action : ActionObj)
    (title : String) : Except String String × List String :=
  let action_type := action.type.getD "note"
  if action_type = "xingyun_tag_check" then
    (run_xingyun_tag_check env fs sh action.checkCfg, [])
  else if action_type = "changan_workorder_check" then
    (run_changan_workorder_check env fs sh action.checkCfg, [])
  else if action_type = "shell" then
    (run_shell sh (action.command.getD "") action.workdir action.args, [])
  else
    let message := (pyOr action.message (some title)).getD ""
    (.ok "Logged todo action.", ["TODO: " ++ message])

/-- The body of `run_todo_scan`'s loop for one item: skip `done` items, skip
items whose `due_at` is missing/unparsable or in the future, otherwise
dispatch; on success mark the item done, on failure record the error and
leave it open.  Returns the (possibly updated) item, whether it was mutated,
and the log lines written.  Log timestamps and block markers are not
modelled. -/
def scanStep (env : Env) (fs : Fs) (sh : Sh) (now : PyDateTime) (todo : TodoItem) :
    TodoItem × Bool × List String :=
  if todo.status = some "done" then (todo, false, [])
  else
    match parse_datetime todo.due_at now.tzoff with
    | none => (todo, false, [])
    | some due_at =>
      if pyGt due_at now then (todo, false, [])
      else
        let action := todo.action.getD {}
        let title := todo.title.getD "todo"
        match dispatchTodoAction env fs sh action title with
        | (.ok result, logs) =>
          ({ todo with status := some "done", done_at := some (isoformat now),
                       result := some result },
           true, logs ++ ["业务任务完成: " ++ title ++ "\n" ++ result])
        | (.error exc, logs) =>
          ({ todo with last_error := some exc, last_attempt_at := some (isoformat now) },
           true, logs ++ ["业务任务失败: " ++ title ++ ", 错误: " ++ exc])

/-- The scan loop over the whole list. -/
def scanTodos (env : Env) (fs : Fs) (sh : Sh) (now : PyDateTime) :
    List TodoItem → List TodoItem × Bool × List String
  | [] => ([], false, [])
  | t :: ts =>
    let (t2, u, lg) := scanStep env fs sh now t
    let (ts2, us, lgs) := scanTodos env fs sh now ts
    (t2 :: ts2, u || us, lg ++ lgs)

structure ScanRes where
  summary : String
  doc : StoredDoc TodoItem
  wrote : Bool
  logs : List String
deriving Repr, DecidableEq

/-- Model of `run_todo_scan(now)`: load the todo document; raise `RuntimeError` when it
is valid JSON but not a list; otherwise scan every item and write the whole
store back exactly when some item was mutated. -/
def run_todo_scan (env : Env) (fs : Fs) (sh : Sh) (now : PyDateTime)
    (doc : StoredDoc TodoItem) : Except String ScanRes :=
  match load_json doc (.arr []) with
  | .notArr => .error "todos.json should be a list of todo items."
  | .arr todos =>
    let (todos2, updated, logs) := scanTodos env fs sh now todos
    .ok { summary := "Todo scan finished.",
          doc := if updated then .arr todos2 else doc,
          wrote := updated,
          logs := logs }

/-! ## `create_todo` and `run_task` -/

/-- Addition `datetime + timedelta(minutes=mins)`; `none` models the
`OverflowError` on leaving the `datetime` range. -/
def addMinutes (dt : PyDateTime) (mins : Int) : Option PyDateTime :=
  let total : Int := ((dt.dayIndex * usPerDay + dt.usod : Nat) : Int) + mins * (usPerMin : Int)
  if total < 0 then none
  else
    let t := total.toNat
    let c := civilFromDays (t / usPerDay)
    if c.1 < 1 ∨ 9999 < c.1 then none
    else some { year := c.1, month := c.2.1, dayOfMonth := c.2.2,
                usod := t % usPerDay, tzoff := dt.tzoff }

/-- Model of `create_todo(task, now)`: build a todo item from the task's embedded
template and append it to the todo store (which is always saved).  An invalid
`due_offset_minutes` raises (`int(...)`), as does an out-of-range computed
due time; both are modelled with representative messages. -/
def create_todo (task : Task) (now : PyDateTime) (todosDoc : StoredDoc TodoItem) :
    Except String (String × StoredDoc TodoItem) :=
  let todo_config := task.todo.getD {}
  let title := todo_config.title.getD "todo"
  let action : ActionObj :=
    match todo_config.action with
    | some a => if a = {} then { type := some "note", message := some title } else a
    | none => { type := some "note", message := some title }
  match pyToIntOpt (some (todo_config.due_offset_minutes.getD (.vInt 0))) with
  | none => .error "invalid due_offset_minutes"
  | some due_offset =>
    let step : Except String String :=
      if strTruthy todo_config.due_at then .ok (todo_config.due_at.getD "")
      else
        match addMinutes now due_offset with
        | none => .error "date value out of range"
        | some dt => .ok (strftimeYmdHM dt)
    match step with
    | .error e => .error e
    | .ok due_at =>
      let pfx := pyOr todo_config.idPrefix (some (task.id.getD "todo"))
      let todo_id := pfx.getD "" ++ "-" ++ strftimeCompact now
      let todo_item : TodoItem :=
        { id := some todo_id, title := some title, due_at := some due_at,
          status := some "open", action := some action }
      let todos :=
        match load_json todosDoc (.arr []) with
        | .arr l => l
        | .notArr => []
      .ok ("Todo created: " ++ title ++ " @ " ++ due_at, .arr (todos ++ [todo_item]))

/-- The engine's mutable surroundings: the todo document, the heartbeat file,
and the append-only log (as the list of messages written). -/
structure World where
  todosDoc : StoredDoc TodoItem
  heartbeat : Option String
  log : List String
deriving Repr, DecidableEq

/-- Model of `run_task(task, now)`: dispatch by task type; unknown types raise. -/
def run_task (env : Env) (fs : Fs) (sh : Sh) (task : Task) (now : PyDateTime)
    (w : World) : Except String String × World :=
  match task.type with
  | some "todo_scan" =>
    (match run_todo_scan env fs sh now w.todosDoc with
     | .error e => (.error e, w)
     | .ok r => (.ok r.summary, { w with todosDoc := r.doc, log := w.log ++ r.logs }))
  | some "todo_create" =>
    (match create_todo task now w.todosDoc with
     | .error e => (.error e, w)
     | .ok (msg, doc2) => (.ok msg, { w with todosDoc := doc2 }))
  | some "xingyun_tag_check" => (run_xingyun_tag_check env fs sh task.checkCfg, w)
  | some "changan_workorder_check" => (run_changan_workorder_check env fs sh task.checkCfg, w)
  | t => (.error ("Unsupported task type: " ++ pyStrOf t), w)

/-! ## `TaskScheduler.run_cycle` -/

/-- The accumulator of one tick: the in-memory run state, the
`state_changed` flag, the world, the `skip_notices` dedup set, and the
message of an uncaught exception when the tick has crashed (processing of the
remaining tasks stops and the final state save is skipped). -/
structure CycleState where
  state : RunState
  state_changed : Bool
  world : World
  notices : List (String × String × String)
  crashed : Option String
deriving Repr, DecidableEq

/-- The task loop of `run_cycle`. -/
def processTasks (env : Env) (fs : Fs) (sh : Sh) (now : PyDateTime) :
    List Task → CycleState → CycleState
  | [], acc => acc
  | task :: rest, acc =>
    if ¬ task.enabled then
      let task_id := task.id.getD "unknown"
      let key := (task_id, dateIso now, "disabled")
      let acc :=
        if key ∈ acc.notices then acc
        else { acc with
               world := { acc.world with
                          log := acc.world.log ++ ["任务跳过: " ++ task_id ++ ", 原因: 已禁用"] },
               notices := acc.notices ++ [key] }
      processTasks env fs sh now rest acc
    else if ¬ strTruthy task.id then
      processTasks env fs sh now rest acc
    else
      match evaluate_task task now acc.state with
      | .error e => { acc with crashed := some e }
      | .ok (should_run, reason, run_time) =>
        let task_id := task.id.getD ""
        let acc :=
          if should_run then
            match run_task env fs sh task now acc.world with
            | (.ok result, w2) =>
              { acc with
                world := { w2 with log := w2.log ++ ["任务完成: " ++ task_id ++ "\n" ++ result] },
                state := stateSet acc.state task_id (isoformat now),
                state_changed := true }
            | (.error e, w2) =>
              { acc with
                world := { w2 with log := w2.log ++ ["任务失败: " ++ task_id ++ ", 错误: " ++ e] } }
          else
            if reason = "already ran today" then
              let key := (task_id, dateIso now, reason)
              if key ∈ acc.notices then acc
              else
                { acc with
                  notices := acc.notices ++ [key],
                  world := { acc.world with
                             log := acc.world.log ++
                               ["任务跳过: " ++ task_id ++ ", 原因: 今日已执行过, 时间: " ++
                                timeOfDayStr run_time] } }
            else acc
        processTasks env fs sh now rest acc

/-- One tick: write the heartbeat, load tasks and state fresh, process every
task, and persist the run state only when something ran (and the tick did not
crash before reaching the save). -/
def run_cycle (env : Env) (fs : Fs) (sh : Sh) (now : PyDateTime)
    (tasksDoc : StoredDoc Task) (stateDoc : StateDoc) (w : World)
    (notices : List (String × String × String)) : CycleState × StateDoc :=
  let w := { w with heartbeat := some (isoformat now) }
  let tasks := load_tasks tasksDoc
  let state := load_state stateDoc
  let res := processTasks env fs sh now tasks
    { state := state, state_changed := false, world := w, notices := notices, crashed := none }
  (res, if res.crashed.isNone ∧ res.state_changed then .dict res.state else stateDoc)

/-! ## Concrete fixtures shared by witnesses and counterexamples -/

/-- An empty process environment. -/
def envNone : Env := fun _ => none

/-- A filesystem on which every `exists()` check succeeds. -/
def fsAll : Fs := fun _ => true

/-- A subprocess oracle: every command exits 0 printing `hi`. -/
def shEcho : Sh := fun _ _ => { returncode := 0, stdout := "hi", stderr := "" }

/-- A subprocess oracle: every command exits 1 with stderr `boom`. -/
def shBoom : Sh := fun _ _ => { returncode := 1, stdout := "", stderr := "boom" }

/-- Fixture: 2025-06-05 09:30:00 +08:00 (the scheduler's `now` is always aware). -/
def nowJ : PyDateTime := ⟨2025, 6, 5, 34200000000, some 480⟩

def taskInterval1 : Task :=
  { id := some "t1", type := some "todo_scan",
    schedule := some { kind := some "interval", minutes := some (.vInt 1) } }

def taskDaily9 : Task :=
  { id := some "t2", type := some "todo_scan",
    schedule := some { kind := some "daily", time := some "09:00" } }

/-! ## C1 -/

/-- C1: for every `daily` task (with a well-formed `HH:MM` schedule time, as
the data-model invariant requires of daily tasks) and every `now`, if the
recorded last-run timestamp for the task's id parses to a date equal to
`now`'s date, `evaluate_task` returns not-due with reason
"already ran today", whatever `now`'s time of day.  Since `now` is
universally quantified, a daily task whose run has been recorded today stays
not-due at every later tick of the same calendar day, so it fires at most
once per day. -/
theorem C1_daily_already_ran_today (task : Task) (now : PyDateTime) (state : RunState)
    (sched : Schedule) (rt : Nat)
    (hs : task.schedule = some sched)
    (hk : sched.kind = some "daily")
    (ht : parse_time sched.time = some rt)
    (hl : last_run_date (stateGet state task.id) = some now.date) :
    evaluate_task task now state = .ok (false, "already ran today", some rt) := by
  simp [evaluate_task, hs, hk, ht, hl, strTruthy]

/-- Witness for C1 at a concrete daily task, with `now` late in the evening
(23:39), long after the 09:00 trigger, and the recorded run at 07:00 the same
day. -/
theorem C1_daily_already_ran_today_witness :
    evaluate_task taskDaily9 ⟨2025, 6, 5, 85140000000, some 480⟩
      [("t2", "2025-06-05T07:00:00+08:00")] =
      .ok (false, "already ran today", some 32400000000) :=
  C1_daily_already_ran_today taskDaily9 ⟨2025, 6, 5, 85140000000, some 480⟩
    [("t2", "2025-06-05T07:00:00+08:00")] { kind := some "daily", time := some "09:00" }
    32400000000 rfl rfl rfl rfl

/-! ## C2 -/

/-- C2 counterexample, two independent refutations of the claimed
biconditional.  First: an `interval` task whose run state records a value
that does **not** parse as a timestamp is due (the `ValueError` is swallowed
and the guard skipped), although a last-run value *is* recorded and `now`
minus a parsed last run is unavailable.  Second: with a parseable,
awareness-matching recorded last run and a huge **negative** `minutes`
(normalized day count -1000000000, past the `timedelta` bound), the
evaluator raises an uncaught `OverflowError` — so it does *not* return due —
even though `now - last_run ≥ minutes` holds; so due-ness is not equivalent
to "no last-run recorded, or `now - last_run ≥ interval`" in either
direction. -/
theorem C2_counterexample :
    (evaluate_task taskInterval1 nowJ [("t1", "not-a-timestamp")] =
        .ok (true, "interval due", none)
      ∧ stateGet [("t1", "not-a-timestamp")] taskInterval1.id = some "not-a-timestamp"
      ∧ fromisoformat "not-a-timestamp" = none)
    ∧ (evaluate_task
        { id := some "t1", type := some "todo_scan",
          schedule := some { kind := some "interval", minutes := some (.vInt (-1439999998561)) } }
        nowJ [("t1", "2025-06-05T09:00:00+08:00")] =
          .error "days=-1000000000; must have magnitude <= 999999999"
      ∧ fromisoformat "2025-06-05T09:00:00+08:00" =
          some ⟨2025, 6, 5, 32400000000, some 480⟩
      ∧ (-1439999998561 : Int) * (usPerMin : Int) ≤
          nowJ.absUs - (⟨2025, 6, 5, 32400000000, some 480⟩ : PyDateTime).absUs) :=
  ⟨⟨rfl, rfl, rfl⟩, rfl, rfl, by decide⟩

theorem timedeltaMinutes_ne_none (m : Int) (h : timedeltaMinutes m ≠ none) :
    timedeltaMinutes m = some (m * (usPerMin : Int)) := by
  by_cases hc : -999999999 ≤ m.fdiv 1440 ∧ m.fdiv 1440 ≤ 999999999
  · simp [timedeltaMinutes, hc]
  · exact absurd (by simp [timedeltaMinutes, hc]) h

/-- C2 amended: for an `interval` task with a valid integer `minutes` field
that is within `timedelta`'s ±999999999-day bound (outside it the evaluator
raises `OverflowError` whenever a parseable last run is recorded, see the
counterexample), and whose recorded value does not mix awareness with `now`
(which would raise `TypeError`), `evaluate_task` returns due **iff** no
truthy last-run value is recorded for the task's id, or the recorded value
fails to parse under `fromisoformat`, or `now` minus the parsed last run is
at least the configured number of minutes. -/
theorem C2_interval_due_iff (task : Task) (now : PyDateTime) (state : RunState)
    (sched : Schedule) (minutes : Int)
    (hs : task.schedule = some sched)
    (hk : sched.kind = some "interval")
    (hm : pyToIntOpt sched.minutes = some minutes)
    (htd : timedeltaMinutes minutes ≠ none)
    (haware : ∀ dt, fromisoformat ((stateGet state task.id).getD "") = some dt →
      dt.tzoff.isSome = now.tzoff.isSome) :
    (evaluate_task task now state = .ok (true, "interval due", none)) ↔
      (¬ strTruthy (stateGet state task.id)
        ∨ fromisoformat ((stateGet state task.id).getD "") = none
        ∨ ∃ dt, fromisoformat ((stateGet state task.id).getD "") = some dt ∧
            minutes * (usPerMin : Int) ≤ now.absUs - dt.absUs) := by
  have hi : strTruthy (some "interval") = true := by decide
  have htd2 := timedeltaMinutes_ne_none minutes htd
  by_cases h1 : strTruthy (stateGet state task.id)
  · cases h2 : fromisoformat ((stateGet state task.id).getD "") with
    | none => simp [evaluate_task, hs, hk, hm, h1, h2, hi]
    | some dt =>
      have hsub : pySub now dt = some (now.absUs - dt.absUs) := by
        simp [pySub, haware dt h2]
      by_cases h3 : now.absUs - dt.absUs < minutes * (usPerMin : Int)
      · simp [evaluate_task, hs, hk, hm, h1, h2, hsub, htd2, h3, hi, not_le.mpr h3]
      · simp [evaluate_task, hs, hk, hm, h1, h2, hsub, htd2, h3, hi, not_lt.mp h3]
  · simp [evaluate_task, hs, hk, hm, h1, hi]

/-- Witness for C2 at the spec's scenario: a one-minute interval task whose
recorded last run is exactly 60 seconds before `now` is due again. -/
theorem C2_interval_due_iff_witness :
    evaluate_task taskInterval1 nowJ [("t1", "2025-06-05T09:29:00+08:00")] =
      .ok (true, "interval due", none) :=
  (C2_interval_due_iff taskInterval1 nowJ [("t1", "2025-06-05T09:29:00+08:00")]
      { kind := some "interval", minutes := some (.vInt 1) } 1 rfl rfl rfl (by decide)
      (by
        intro dt h
        have hc : (⟨2025, 6, 5, 34140000000, some 480⟩ : PyDateTime) = dt :=
          Option.some.inj h
        rw [← hc]
        rfl)).mpr
    (Or.inr (Or.inr ⟨⟨2025, 6, 5, 34140000000, some 480⟩, rfl, by decide⟩))

/-! ## C8 -/

theorem strTruthy_eq_true_iff (o : Option String) :
    strTruthy o = true ↔ ∃ s, o = some s ∧ s ≠ "" := by
  cases o <;> simp [strTruthy]

theorem pySub_eq_none_iff (a b : PyDateTime) :
    pySub a b = none ↔ ¬ (a.tzoff.isSome = b.tzoff.isSome) := by
  by_cases h : a.tzoff.isSome = b.tzoff.isSome <;> simp [pySub, h]

/-- C8 counterexample: an unparsable recorded last-run does **not** yield a
not-due result — an `interval` task with garbage in its run-state entry is
due — and the evaluator is not raise-free, in two ways: a recorded last-run
that parses as an offset-naive datetime makes the `interval` branch's
subtraction against the aware `now` raise (`TypeError`, uncaught), and an
integer `minutes` beyond `timedelta`'s ±999999999-day bound makes the
`timedelta` construction raise (`OverflowError`, uncaught) whenever a
parseable last run is recorded. -/
theorem C8_counterexample :
    evaluate_task taskInterval1 nowJ [("t1", "yesterday")] =
      .ok (true, "interval due", none)
    ∧ evaluate_task taskInterval1 nowJ [("t1", "2025-06-05T09:29:00")] =
      .error "can't subtract offset-naive and offset-aware datetimes"
    ∧ evaluate_task
        { id := some "t1", type := some "todo_scan",
          schedule := some { kind := some "interval", minutes := some (.vInt 2000000000000) } }
        nowJ [("t1", "2025-06-05T09:29:00+08:00")] =
      .error "days=1388888888; must have magnitude <= 999999999" :=
  ⟨rfl, rfl, rfl⟩

/-- C8 amended: missing or malformed **schedule fields** (absent/falsy kind,
non-integer interval minutes, invalid `HH:MM` time, invalid `day_of_week`,
unknown kind) all yield a not-due result with a reason string; an unparsable
recorded last-run timestamp is instead treated as "never ran" (for `interval`
kinds the task is due, see the counterexample); and the evaluator returns a
value rather than raising in every case **except** on the `interval` branch
with a truthy recorded last-run that `fromisoformat` parses, where the line
`now - last_run_dt < timedelta(minutes=minutes)` can raise in exactly two
ways (only `ValueError` is caught): `TypeError` when the parsed datetime's
awareness differs from `now`'s, and `OverflowError` when the integer
`minutes` exceeds `timedelta`'s ±999999999-day bound. -/
theorem C8_amended_malformed_not_due_total :
    (∀ (task : Task) (now : PyDateTime) (state : RunState),
      strTruthy (task.schedule.getD {}).kind = false →
      evaluate_task task now state = .ok (false, "missing schedule", none))
    ∧ (∀ (task : Task) (now : PyDateTime) (state : RunState) (sched : Schedule),
      task.schedule = some sched → sched.kind = some "interval" →
      pyToIntOpt sched.minutes = none →
      evaluate_task task now state = .ok (false, "missing interval", none))
    ∧ (∀ (task : Task) (now : PyDateTime) (state : RunState) (sched : Schedule),
      task.schedule = some sched → strTruthy sched.kind = true →
      sched.kind ≠ some "interval" → parse_time sched.time = none →
      evaluate_task task now state = .ok (false, "missing schedule time", none))
    ∧ (∀ (task : Task) (now : PyDateTime) (state : RunState) (sched : Schedule) (rt : Nat),
      task.schedule = some sched → sched.kind = some "weekly" →
      parse_time sched.time = some rt →
      WEEKDAY_MAP.lookup ((sched.day_of_week.getD "").toLower) = none →
      ∃ reason, evaluate_task task now state = .ok (false, reason, some rt))
    ∧ (∀ (task : Task) (now : PyDateTime) (state : RunState) (sched : Schedule),
      task.schedule = some sched → strTruthy sched.kind = true →
      sched.kind ≠ some "interval" → sched.kind ≠ some "daily" → sched.kind ≠ some "weekly" →
      ∃ reason rt, evaluate_task task now state = .ok (false, reason, rt))
    ∧ (∀ (task : Task) (now : PyDateTime) (state : RunState) (e : String),
      evaluate_task task now state = .error e →
      (task.schedule.getD {}).kind = some "interval" ∧
      ∃ s dt, stateGet state task.id = some s ∧ fromisoformat s = some dt ∧
        (dt.tzoff.isSome ≠ now.tzoff.isSome ∨
         ∃ m, pyToIntOpt (task.schedule.getD {}).minutes = some m ∧
           timedeltaMinutes m = none)) := by
  refine ⟨?_, ?_, ?_, ?_, ?_, ?_⟩
  · intro task now state h
    simp [evaluate_task, h]
  · intro task now state sched hs hk hm
    simp [evaluate_task, hs, hk, hm, strTruthy]
  · intro task now state sched hs hk hni hpt
    simp [evaluate_task, hs, hk, hni, hpt]
  · intro task now state sched rt hs hk hpt hdow
    by_cases hl : last_run_date (stateGet state task.id) = some now.date
    · exact ⟨"already ran today", by simp [evaluate_task, hs, hk, hpt, hl, strTruthy]⟩
    · exact ⟨"invalid schedule", by simp [evaluate_task, hs, hk, hpt, hdow, hl, strTruthy]⟩
  · intro task now state sched hs hk hni hnd hnw
    cases hpt : parse_time sched.time with
    | none =>
      exact ⟨"missing schedule time", none, by simp [evaluate_task, hs, hk, hni, hpt]⟩
    | some rt =>
      by_cases hl : last_run_date (stateGet state task.id) = some now.date
      · exact ⟨"already ran today", some rt, by simp [evaluate_task, hs, hk, hni, hpt, hl]⟩
      · exact ⟨"unsupported schedule", some rt,
          by simp [evaluate_task, hs, hk, hni, hnd, hnw, hpt, hl]⟩
  · intro task now state e h
    have hsi : strTruthy (some "interval") = true := by decide
    have hsd : strTruthy (some "daily") = true := by decide
    have hsw : strTruthy (some "weekly") = true := by decide
    by_cases h0 : strTruthy (task.schedule.getD {}).kind
    · by_cases h1 : (task.schedule.getD {}).kind = some "interval"
      · refine ⟨h1, ?_⟩
        cases hm : pyToIntOpt (task.schedule.getD {}).minutes with
        | none => simp [evaluate_task, h0, h1, hm, hsi] at h
        | some minutes =>
          by_cases h2 : strTruthy (stateGet state task.id)
          · obtain ⟨s, hss, hne⟩ := (strTruthy_eq_true_iff _).mp h2
            have hsts : strTruthy (some s) = true := by simp [strTruthy, hne]
            cases hf : fromisoformat s with
            | none => simp [evaluate_task, h0, h1, hm, h2, hss, hsts, hf, hsi] at h
            | some dt =>
              refine ⟨s, dt, hss, hf, ?_⟩
              cases hps : pySub now dt with
              | none =>
                have hne2 := (pySub_eq_none_iff now dt).mp hps
                exact Or.inl (fun hh => hne2 hh.symm)
              | some diff =>
                cases htd : timedeltaMinutes minutes with
                | none => exact Or.inr ⟨minutes, rfl, htd⟩
                | some td =>
                  exfalso
                  by_cases h3 : diff < td <;>
                    simp [evaluate_task, h0, h1, hm, h2, hss, hsts, hf, hps, htd, h3, hsi] at h
          · simp [evaluate_task, h0, h1, hm, h2, hsi] at h
      · cases hpt : parse_time (task.schedule.getD {}).time with
        | none => simp [evaluate_task, h0, h1, hpt] at h
        | some rt =>
          by_cases hl : last_run_date (stateGet state task.id) = some now.date
          · simp [evaluate_task, h0, h1, hpt, hl] at h
          · by_cases hd : (task.schedule.getD {}).kind = some "daily"
            · simp [evaluate_task, h0, h1, hpt, hl, hd, hsd] at h
            · by_cases hw : (task.schedule.getD {}).kind = some "weekly"
              · cases hdow :
                  WEEKDAY_MAP.lookup (((task.schedule.getD {}).day_of_week.getD "").toLower) with
                | none => simp [evaluate_task, h0, h1, hpt, hl, hd, hw, hdow, hsw] at h
                | some td => simp [evaluate_task, h0, h1, hpt, hl, hd, hw, hdow, hsw] at h
              · simp [evaluate_task, h0, h1, hpt, hl, hd, hw] at h
    · simp [evaluate_task, h0] at h

/-- Witness for C8 (amended): a task with no `schedule` object at all is a
hard not-due with reason "missing schedule". -/
theorem C8_amended_malformed_witness :
    evaluate_task { id := some "x" } nowJ [] = .ok (false, "missing schedule", none) :=
  C8_amended_malformed_not_due_total.1 { id := some "x" } nowJ [] rfl

/-! ## C9 -/

/-- C9: an open, due todo whose action type is anything other than the three
recognised tags (including an absent type) falls through to the note branch:
the action's message (or the todo's title) is logged and the todo is
unconditionally marked done with result "Logged todo action." — for every
environment/filesystem/subprocess oracle, so no dispatch failure is
possible. -/
theorem C9_unknown_action_type_noted (env : Env) (fs : Fs) (sh : Sh) (now : PyDateTime)
    (todo : TodoItem) (due : PyDateTime)
    (hst : todo.status ≠ some "done")
    (hdue : parse_datetime todo.due_at now.tzoff = some due)
    (hfut : pyGt due now = false)
    (hty : (todo.action.getD {}).type.getD "note" ∉
      (["xingyun_tag_check", "changan_workorder_check", "shell"] : List String)) :
    scanStep env fs sh now todo =
      ({ todo with status := some "done", done_at := some (isoformat now),
                   result := some "Logged todo action." },
       true,
       ["TODO: " ++ (pyOr (todo.action.getD {}).message (some (todo.title.getD "todo"))).getD "",
        "业务任务完成: " ++ todo.title.getD "todo" ++ "\n" ++ "Logged todo action."]) := by
  have h3 : ¬ ((todo.action.getD {}).type.getD "note" = "xingyun_tag_check")
      ∧ ¬ ((todo.action.getD {}).type.getD "note" = "changan_workorder_check")
      ∧ ¬ ((todo.action.getD {}).type.getD "note" = "shell") := by
    simpa using hty
  simp [scanStep, dispatchTodoAction, hst, hdue, hfut, h3.1, h3.2.1, h3.2.2]

/-- Witness for C9: a due open todo with the unknown action type
`frobnicate` is marked done with the note result, whatever the oracles do. -/
theorem C9_unknown_action_type_noted_witness :
    scanStep envNone fsAll shBoom nowJ
      { id := some "n", title := some "N", due_at := some "2025-06-05 09:00",
        status := some "open", action := some { type := some "frobnicate" } } =
      ({ id := some "n", title := some "N", due_at := some "2025-06-05 09:00",
         status := some "done", action := some { type := some "frobnicate" },
         done_at := some "2025-06-05T09:30:00+08:00",
         result := some "Logged todo action." },
       true,
       ["TODO: N", "业务任务完成: N\nLogged todo action."]) :=
  C9_unknown_action_type_noted envNone fsAll shBoom nowJ
    { id := some "n", title := some "N", due_at := some "2025-06-05 09:00",
      status := some "open", action := some { type := some "frobnicate" } }
    ⟨2025, 6, 5, 32400000000, some 480⟩ (by decide) rfl rfl (by decide)

/-! ## C10 -/

theorem scanTodos_append (env : Env) (fs : Fs) (sh : Sh) (now : PyDateTime)
    (l1 l2 : List TodoItem) :
    (scanTodos env fs sh now (l1 ++ l2)).1 =
      (scanTodos env fs sh now l1).1 ++ (scanTodos env fs sh now l2).1 := by
  induction l1 with
  | nil => simp [scanTodos]
  | cons t ts ih => simp [scanTodos, ih]

/-- C10: an open todo whose `due_at` is missing or unparsable under the two
`strptime` formats is skipped with every field unchanged — the scan step
returns the item as-is, mutates nothing, dispatches nothing (for every
oracle), writes no log, and in any surrounding store the item reappears
verbatim in the scanned list, so it silently stays open on every scan. -/
theorem C10_unparsable_due_at_skipped (env : Env) (fs : Fs) (sh : Sh)
    (now : PyDateTime) (todo : TodoItem)
    (hst : todo.status ≠ some "done")
    (hdue : parse_datetime todo.due_at now.tzoff = none) :
    scanStep env fs sh now todo = (todo, false, []) ∧
    ∀ pre post : List TodoItem,
      (scanTodos env fs sh now (pre ++ todo :: post)).1 =
        (scanTodos env fs sh now pre).1 ++ todo :: (scanTodos env fs sh now post).1 := by
  have h1 : scanStep env fs sh now todo = (todo, false, []) := by
    simp [scanStep, hst, hdue]
  refine ⟨h1, fun pre post => ?_⟩
  rw [scanTodos_append]
  simp [scanTodos, h1]

/-- Witness for C10: an open todo whose `due_at` is the unparsable string
`"next tuesday"` passes through a scan unchanged. -/
theorem C10_unparsable_due_at_skipped_witness :
    scanStep envNone fsAll shEcho nowJ
      { id := some "u", title := some "U", due_at := some "next tuesday",
        status := some "open", action := some { type := some "note" } } =
      ({ id := some "u", title := some "U", due_at := some "next tuesday",
         status := some "open", action := some { type := some "note" } },
       false, []) :=
  (C10_unparsable_due_at_skipped envNone fsAll shEcho nowJ
    { id := some "u", title := some "U", due_at := some "next tuesday",
      status := some "open", action := some { type := some "note" } }
    (by decide) rfl).1

/-! ## C3 -/

theorem strTruthy_pyOr (a b : Option String) :
    strTruthy (pyOr a b) = (strTruthy a || strTruthy b) := by
  by_cases h : strTruthy a <;> simp [pyOr, h]

/-- C3 counterexample to "never raises": a todo document that is valid JSON
but not a list makes `run_todo_scan` raise `RuntimeError` before touching any
item. -/
theorem C3_counterexample :
    run_todo_scan envNone fsAll shEcho nowJ .notArr =
      .error "todos.json should be a list of todo items." := rfl

/-- C3 amended: the scan returns normally whenever the todo document is
absent, unparsable, or a JSON array (it raises only on a valid-JSON
non-array document, see the counterexample), and it isolates failures per
item: with a due open item `a` whose `xingyun_tag_check` action has no
resolvable repo path (a guaranteed dispatch failure) and a due open item `b`
with a note-like action (a guaranteed dispatch success), one scan marks `b`
done with `done_at` and `result` set while `a` keeps its `open` status with
`last_error` and `last_attempt_at` set — neither blocks the other. -/
theorem C3_amended_no_raise_and_isolation :
    (∀ (env : Env) (fs : Fs) (sh : Sh) (now : PyDateTime) (doc : StoredDoc TodoItem),
      doc ≠ .notArr → (run_todo_scan env fs sh now doc).isOk = true)
    ∧ (∀ (env : Env) (fs : Fs) (sh : Sh) (now : PyDateTime) (a b : TodoItem)
        (dueA dueB : PyDateTime) (actA : ActionObj),
      a.status = some "open" →
      parse_datetime a.due_at now.tzoff = some dueA → pyGt dueA now = false →
      a.action = some actA → actA.type = some "xingyun_tag_check" →
      strTruthy actA.repo_path = false → strTruthy (env "XINGYUN_REPO_PATH") = false →
      b.status = some "open" →
      parse_datetime b.due_at now.tzoff = some dueB → pyGt dueB now = false →
      (b.action.getD {}).type.getD "note" ∉
        (["xingyun_tag_check", "changan_workorder_check", "shell"] : List String) →
      run_todo_scan env fs sh now (.arr [a, b]) =
        .ok { summary := "Todo scan finished.",
              doc := .arr
                [{ a with last_error := some "Missing XINGYUN_REPO_PATH for Xingyun tag check.",
                          last_attempt_at := some (isoformat now) },
                 { b with status := some "done", done_at := some (isoformat now),
                          result := some "Logged todo action." }],
              wrote := true,
              logs := ["业务任务失败: " ++ a.title.getD "todo" ++ ", 错误: " ++
                         "Missing XINGYUN_REPO_PATH for Xingyun tag check.",
                       "TODO: " ++ (pyOr (b.action.getD {}).message (some (b.title.getD "todo"))).getD "",
                       "业务任务完成: " ++ b.title.getD "todo" ++ "\n" ++ "Logged todo action."] }) := by
  constructor
  · intro env fs sh now doc hne
    cases doc with
    | absent => rfl
    | badJson => rfl
    | notArr => exact absurd rfl hne
    | arr items => simp [run_todo_scan, load_json, Except.isOk, Except.toBool]
  · intro env fs sh now a b dueA dueB actA ha1 ha2 ha3 ha4 ha5 ha6 ha7 hb1 hb2 hb3 hb4
    have hk : ¬ ((b.action.getD {}).type.getD "note" = "xingyun_tag_check")
        ∧ ¬ ((b.action.getD {}).type.getD "note" = "changan_workorder_check")
        ∧ ¬ ((b.action.getD {}).type.getD "note" = "shell") := by
      simpa using hb4
    have hpo : strTruthy (pyOr actA.repo_path (env "XINGYUN_REPO_PATH")) = false := by
      rw [strTruthy_pyOr, ha6, ha7]; rfl
    have hsa : a.status ≠ some "done" := by simp [ha1]
    have hsb : b.status ≠ some "done" := by simp [hb1]
    simp [run_todo_scan, load_json, scanTodos, scanStep, dispatchTodoAction,
      run_xingyun_tag_check, ActionObj.checkCfg, hsa, hsb, ha2, ha3, ha4, ha5, hpo,
      hb2, hb3, hk.1, hk.2.1, hk.2.2]

/-- Witness for C3 (amended), at concrete items: `a` is an unresolvable
Xingyun check, `b` a plain note; after one scan `b` is done and `a` is still
open with `last_error` populated. -/
theorem C3_amended_no_raise_and_isolation_witness :
    run_todo_scan envNone fsAll shEcho nowJ
      (.arr [{ id := some "a", title := some "A", due_at := some "2025-06-05 09:00",
               status := some "open", action := some { type := some "xingyun_tag_check" } },
             { id := some "b", title := some "B", due_at := some "2025-06-05 09:00",
               status := some "open", action := some { type := some "note", message := some "hello" } }]) =
      .ok { summary := "Todo scan finished.",
            doc := .arr
              [{ id := some "a", title := some "A", due_at := some "2025-06-05 09:00",
                 status := some "open", action := some { type := some "xingyun_tag_check" },
                 last_error := some "Missing XINGYUN_REPO_PATH for Xingyun tag check.",
                 last_attempt_at := some "2025-06-05T09:30:00+08:00" },
               { id := some "b", title := some "B", due_at := some "2025-06-05 09:00",
                 status := some "done", action := some { type := some "note", message := some "hello" },
                 done_at := some "2025-06-05T09:30:00+08:00",
                 result := some "Logged todo action." }],
            wrote := true,
            logs := ["业务任务失败: A, 错误: Missing XINGYUN_REPO_PATH for Xingyun tag check.",
                     "TODO: hello",
                     "业务任务完成: B\nLogged todo action."] } :=
  C3_amended_no_raise_and_isolation.2 envNone fsAll shEcho nowJ
    { id := some "a", title := some "A", due_at := some "2025-06-05 09:00",
      status := some "open", action := some { type := some "xingyun_tag_check" } }
    { id := some "b", title := some "B", due_at := some "2025-06-05 09:00",
      status := some "open", action := some { type := some "note", message := some "hello" } }
    ⟨2025, 6, 5, 32400000000, some 480⟩ ⟨2025, 6, 5, 32400000000, some 480⟩
    { type := some "xingyun_tag_check" }
    rfl rfl rfl rfl rfl rfl rfl rfl rfl rfl (by decide)

/-! ## C4 -/

/-- C4 counterexample: with the action's own field and the environment both
unset but a `config.json` default available, the front end's claimed
three-level resolution succeeds — yet both dispatchers still fail with the
missing-repo-path error, because dispatch never consults a configuration
default. -/
theorem C4_counterexample :
    resolve_repo_path_source none none (some "/cfg/xingyun-repo") = some "/cfg/xingyun-repo"
    ∧ run_xingyun_tag_check envNone fsAll shEcho {} =
        .error "Missing XINGYUN_REPO_PATH for Xingyun tag check."
    ∧ run_changan_workorder_check envNone fsAll shEcho {} =
        .error "Missing CHANGAN_REPO_PATH for Changan work order check." :=
  ⟨rfl, rfl, rfl⟩

/-- C4 amended: at dispatch time each named check resolves the repository
path from the action's own `repo_path` field, else the named environment
variable — only those two, in that priority order (the `config.json` default
exists only in the front end's validation).  When both are falsy the dispatch
fails fast, for every filesystem and subprocess oracle (so before any
subprocess), with an error naming the missing repository-path variable, and a
todo carrying such an action is left with `last_error`/`last_attempt_at` set
and its `open` status untouched. -/
theorem C4_amended_two_level_resolution :
    (∀ (cfg : CheckCfg) (env : Env) (fs : Fs) (sh : Sh),
      strTruthy cfg.repo_path = false → strTruthy (env "XINGYUN_REPO_PATH") = false →
      run_xingyun_tag_check env fs sh cfg =
        .error "Missing XINGYUN_REPO_PATH for Xingyun tag check.")
    ∧ (∀ (cfg : CheckCfg) (env : Env) (fs : Fs) (sh : Sh),
      strTruthy cfg.repo_path = false → strTruthy (env "CHANGAN_REPO_PATH") = false →
      run_changan_workorder_check env fs sh cfg =
        .error "Missing CHANGAN_REPO_PATH for Changan work order check.")
    ∧ (∀ a b : Option String, strTruthy a = true → pyOr a b = a)
    ∧ (∀ (env : Env) (fs : Fs) (sh : Sh) (now : PyDateTime) (todo : TodoItem)
        (due : PyDateTime) (actA : ActionObj),
      todo.status = some "open" →
      parse_datetime todo.due_at now.tzoff = some due → pyGt due now = false →
      todo.action = some actA → actA.type = some "xingyun_tag_check" →
      strTruthy actA.repo_path = false → strTruthy (env "XINGYUN_REPO_PATH") = false →
      scanStep env fs sh now todo =
        ({ todo with last_error := some "Missing XINGYUN_REPO_PATH for Xingyun tag check.",
                     last_attempt_at := some (isoformat now) },
         true,
         ["业务任务失败: " ++ todo.title.getD "todo" ++ ", 错误: " ++
            "Missing XINGYUN_REPO_PATH for Xingyun tag check."])) := by
  refine ⟨?_, ?_, ?_, ?_⟩
  · intro cfg env fs sh h1 h2
    have hpo : strTruthy (pyOr cfg.repo_path (env "XINGYUN_REPO_PATH")) = false := by
      rw [strTruthy_pyOr, h1, h2]; rfl
    simp [run_xingyun_tag_check, hpo]
  · intro cfg env fs sh h1 h2
    have hpo : strTruthy (pyOr cfg.repo_path (env "CHANGAN_REPO_PATH")) = false := by
      rw [strTruthy_pyOr, h1, h2]; rfl
    simp [run_changan_workorder_check, hpo]
  · intro a b h
    simp [pyOr, h]
  · intro env fs sh now todo due actA h0 h1 h2 h3 h4 h5 h6
    have hpo : strTruthy (pyOr actA.repo_path (env "XINGYUN_REPO_PATH")) = false := by
      rw [strTruthy_pyOr, h5, h6]; rfl
    have hs : todo.status ≠ some "done" := by simp [h0]
    simp [scanStep, dispatchTodoAction, run_xingyun_tag_check, ActionObj.checkCfg,
      hs, h1, h2, h3, h4, hpo]

/-- Witness for C4 (amended): the Xingyun check with no field and no
environment variable fails fast with the missing-path error. -/
theorem C4_amended_two_level_resolution_witness :
    run_xingyun_tag_check envNone fsAll shBoom { repo_path := some "" } =
      .error "Missing XINGYUN_REPO_PATH for Xingyun tag check." :=
  C4_amended_two_level_resolution.1 { repo_path := some "" } envNone fsAll shBoom rfl rfl

/-! ## C5 -/

/-- C5 counterexample: a present todo document that is valid JSON but not the
expected array shape is **not** treated as empty during a scan — the scan
raises instead of proceeding. -/
theorem C5_counterexample :
    (run_todo_scan envNone fsAll shBoom nowJ .notArr).isOk = false := rfl

/-- C5 amended: an unparsable tasks document or a non-list tasks value loads
as the empty task list; an unparsable todo document makes the scan proceed
with no todos (and no write); but a valid-JSON non-list todo document makes
`run_todo_scan` raise `RuntimeError` — the tick itself still proceeds
(`run_cycle` catches dispatch failures, so it never ends crashed on either
storage error in the tasks document). -/
theorem C5_amended_storage_errors :
    (load_tasks .badJson = [] ∧ load_tasks .notArr = [])
    ∧ (∀ (env : Env) (fs : Fs) (sh : Sh) (now : PyDateTime),
      run_todo_scan env fs sh now .badJson =
        .ok { summary := "Todo scan finished.", doc := .badJson, wrote := false, logs := [] })
    ∧ (∀ (env : Env) (fs : Fs) (sh : Sh) (now : PyDateTime),
      run_todo_scan env fs sh now .notArr =
        .error "todos.json should be a list of todo items.")
    ∧ (∀ (env : Env) (fs : Fs) (sh : Sh) (now : PyDateTime) (stateDoc : StateDoc)
        (w : World) (notices : List (String × String × String)),
      ((run_cycle env fs sh now .badJson stateDoc w notices).1).crashed = none)
    ∧ (∀ (env : Env) (fs : Fs) (sh : Sh) (now : PyDateTime) (stateDoc : StateDoc)
        (w : World) (notices : List (String × String × String)),
      ((run_cycle env fs sh now .notArr stateDoc w notices).1).crashed = none) := by
  refine ⟨⟨rfl, rfl⟩, fun env fs sh now => rfl, fun env fs sh now => rfl, ?_, ?_⟩
  · intro env fs sh now stateDoc w notices
    simp [run_cycle, load_tasks, load_json, processTasks]
  · intro env fs sh now stateDoc w notices
    simp [run_cycle, load_tasks, load_json, processTasks]

/-! ## C6 -/

/-- C6: when a due task's dispatch fails inside a tick, the failure is
appended to the log, the in-memory run state (and the `state_changed` flag)
is passed to the remaining tasks unchanged — so the task's run-state entry is
untouched and it will only be retried when the evaluator next finds it due —
and processing simply continues with the rest of the task list. -/
theorem C6_dispatch_failure_isolated (env : Env) (fs : Fs) (sh : Sh) (now : PyDateTime)
    (task : Task) (rest : List Task) (acc : CycleState) (r : String) (rt : Option Nat)
    (e : String) (w2 : World)
    (hen : task.enabled = true)
    (hid : strTruthy task.id = true)
    (hev : evaluate_task task now acc.state = .ok (true, r, rt))
    (hrun : run_task env fs sh task now acc.world = (.error e, w2)) :
    processTasks env fs sh now (task :: rest) acc =
      processTasks env fs sh now rest
        { acc with world :=
            { w2 with log := w2.log ++ ["任务失败: " ++ task.id.getD "" ++ ", 错误: " ++ e] } } := by
  simp [processTasks, hen, hid, hev, hrun]

/-- Witness for C6: a due task of unsupported type `nope` fails to dispatch;
after the tick's loop the failure is logged and the run state is still
empty. -/
theorem C6_dispatch_failure_isolated_witness :
    processTasks envNone fsAll shEcho nowJ
      [{ id := some "bad", type := some "nope",
         schedule := some { kind := some "interval", minutes := some (.vInt 1) } }]
      { state := [], state_changed := false,
        world := { todosDoc := .arr [], heartbeat := none, log := [] },
        notices := [], crashed := none } =
      { state := [], state_changed := false,
        world := { todosDoc := .arr [], heartbeat := none,
                   log := ["任务失败: bad, 错误: Unsupported task type: nope"] },
        notices := [], crashed := none } :=
  C6_dispatch_failure_isolated envNone fsAll shEcho nowJ
    { id := some "bad", type := some "nope",
      schedule := some { kind := some "interval", minutes := some (.vInt 1) } }
    [] { state := [], state_changed := false,
         world := { todosDoc := .arr [], heartbeat := none, log := [] },
         notices := [], crashed := none }
    "interval due" none "Unsupported task type: nope"
    { todosDoc := .arr [], heartbeat := none, log := [] }
    rfl rfl rfl rfl

/-! ## C7 -/

/-- An item the scan will attempt on this pass: not `done`, with a `due_at`
that parses and is not in the future. -/
def processable (now : PyDateTime) (todo : TodoItem) : Bool :=
  decide (todo.status ≠ some "done") &&
    (match parse_datetime todo.due_at now.tzoff with
     | none => false
     | some due => ! pyGt due now)

theorem scanStep_updated (env : Env) (fs : Fs) (sh : Sh) (now : PyDateTime)
    (todo : TodoItem) :
    (scanStep env fs sh now todo).2.1 = processable now todo := by
  by_cases h : todo.status = some "done"
  · simp [scanStep, processable, h]
  · cases hd : parse_datetime todo.due_at now.tzoff with
    | none => simp [scanStep, processable, h, hd]
    | some due =>
      by_cases hf : pyGt due now
      · simp [scanStep, processable, h, hd, hf]
      · rcases hr : dispatchTodoAction env fs sh (todo.action.getD {}) (todo.title.getD "todo")
          with ⟨r, lgs⟩
        cases r <;> simp [scanStep, processable, h, hd, hf, hr]

theorem scanTodos_updated (env : Env) (fs : Fs) (sh : Sh) (now : PyDateTime)
    (items : List TodoItem) :
    (scanTodos env fs sh now items).2.1 = items.any (processable now) := by
  induction items with
  | nil => simp [scanTodos]
  | cons t ts ih => simp [scanTodos, scanStep_updated, ih]

theorem scanStep_not_processable (env : Env) (fs : Fs) (sh : Sh) (now : PyDateTime)
    (todo : TodoItem) (h : processable now todo = false) :
    scanStep env fs sh now todo = (todo, false, []) := by
  by_cases h1 : todo.status = some "done"
  · simp [scanStep, h1]
  · cases hd : parse_datetime todo.due_at now.tzoff with
    | none => simp [scanStep, h1, hd]
    | some due =>
      by_cases hf : pyGt due now
      · simp [scanStep, h1, hd, hf]
      · exfalso
        simp [processable, h1, hd, hf] at h

theorem scanStep_success_done (env : Env) (fs : Fs) (sh : Sh) (now : PyDateTime)
    (todo : TodoItem) (res : String) (lgs : List String)
    (hp : processable now todo = true)
    (hd : dispatchTodoAction env fs sh (todo.action.getD {}) (todo.title.getD "todo") =
      (.ok res, lgs)) :
    scanStep env fs sh now todo =
      ({ todo with status := some "done", done_at := some (isoformat now),
                   result := some res },
       true,
       lgs ++ ["业务任务完成: " ++ todo.title.getD "todo" ++ "\n" ++ res]) := by
  simp only [processable, Bool.and_eq_true, decide_eq_true_eq] at hp
  obtain ⟨h1, h2⟩ := hp
  cases hdd : parse_datetime todo.due_at now.tzoff with
  | none => rw [hdd] at h2; exact absurd h2 (by simp)
  | some due =>
    rw [hdd] at h2
    simp only [Bool.not_eq_true'] at h2
    simp [scanStep, h1, hdd, h2, hd]

theorem scanTodos_processed_unprocessable (env : Env) (fs : Fs) (sh : Sh)
    (now : PyDateTime) (items : List TodoItem)
    (hsucc : ∀ t ∈ items, processable now t = true →
      (dispatchTodoAction env fs sh (t.action.getD {}) (t.title.getD "todo")).1.isOk = true) :
    ∀ t2 ∈ (scanTodos env fs sh now items).1, processable now t2 = false := by
  induction items with
  | nil => intro t2 h; simp [scanTodos] at h
  | cons t ts ih =>
    intro t2 h2
    rw [scanTodos] at h2
    simp only [List.mem_cons] at h2
    rcases h2 with h2 | h2
    · subst h2
      cases hp : processable now t with
      | false => rw [scanStep_not_processable env fs sh now t hp]; exact hp
      | true =>
        have hok := hsucc t (by simp) hp
        rcases hdis : dispatchTodoAction env fs sh (t.action.getD {}) (t.title.getD "todo")
          with ⟨r, lgs⟩
        cases r with
        | error e => rw [hdis] at hok; simp [Except.isOk, Except.toBool] at hok
        | ok res =>
          rw [scanStep_success_done env fs sh now t res lgs hp hdis]
          simp [processable]
    · exact ih (fun t ht => hsucc t (by simp [ht])) t2 h2

theorem scanTodos_all_skipped (env : Env) (fs : Fs) (sh : Sh) (now : PyDateTime)
    (items : List TodoItem)
    (h : ∀ t ∈ items, processable now t = false) :
    scanTodos env fs sh now items = (items, false, []) := by
  induction items with
  | nil => rfl
  | cons t ts ih =>
    rw [scanTodos, scanStep_not_processable env fs sh now t (h t (by simp)),
      ih (fun t2 ht2 => h t2 (by simp [ht2]))]
    rfl

/-- C7: (i) a due open item whose dispatch succeeds is marked done with
`done_at` and `result` set; (ii) every scan of an array store returns the
summary, writes the whole store back exactly when at least one item was
attempted (mutated), and not at all otherwise; (iii) scanning the result of a
scan whose attempted items all dispatched successfully is a no-op: the same
list comes back, nothing is mutated and nothing is written — so two scans in
immediate succession leave a successfully dispatched item done after the
first call and the second call returns only the summary. -/
theorem C7_scan_idempotent_single_write :
    (∀ (env : Env) (fs : Fs) (sh : Sh) (now : PyDateTime) (todo : TodoItem)
      (res : String) (lgs : List String),
      processable now todo = true →
      dispatchTodoAction env fs sh (todo.action.getD {}) (todo.title.getD "todo") =
        (.ok res, lgs) →
      scanStep env fs sh now todo =
        ({ todo with status := some "done", done_at := some (isoformat now),
                     result := some res },
         true,
         lgs ++ ["业务任务完成: " ++ todo.title.getD "todo" ++ "\n" ++ res]))
    ∧ (∀ (env : Env) (fs : Fs) (sh : Sh) (now : PyDateTime) (items : List TodoItem),
      run_todo_scan env fs sh now (.arr items) =
        .ok { summary := "Todo scan finished.",
              doc := if items.any (processable now) then .arr (scanTodos env fs sh now items).1
                     else .arr items,
              wrote := items.any (processable now),
              logs := (scanTodos env fs sh now items).2.2 })
    ∧ (∀ (env : Env) (fs : Fs) (sh : Sh) (now : PyDateTime) (items : List TodoItem),
      (∀ t ∈ items, processable now t = true →
        (dispatchTodoAction env fs sh (t.action.getD {}) (t.title.getD "todo")).1.isOk = true) →
      run_todo_scan env fs sh now (.arr (scanTodos env fs sh now items).1) =
        .ok { summary := "Todo scan finished.",
              doc := .arr (scanTodos env fs sh now items).1,
              wrote := false, logs := [] }) := by
  refine ⟨scanStep_success_done, ?_, ?_⟩
  · intro env fs sh now items
    have hu := scanTodos_updated env fs sh now items
    rcases hscan : scanTodos env fs sh now items with ⟨l2, u, lgs⟩
    rw [hscan] at hu
    simp only at hu
    subst hu
    simp [run_todo_scan, load_json, hscan]
  · intro env fs sh now items hsucc
    have hall := scanTodos_processed_unprocessable env fs sh now items hsucc
    have hskip := scanTodos_all_skipped env fs sh now (scanTodos env fs sh now items).1 hall
    simp [run_todo_scan, load_json, hskip]

/-- Witness for C7: a store with one due note item; the first scan marks it
done, and a second scan of the resulting store is a pure no-op with no
write. -/
theorem C7_scan_idempotent_single_write_witness :
    run_todo_scan envNone fsAll shEcho nowJ
      (.arr [{ id := some "b", title := some "B", due_at := some "2025-06-05 09:00",
               status := some "done", action := some { type := some "note" },
               done_at := some "2025-06-05T09:30:00+08:00",
               result := some "Logged todo action." }]) =
      .ok { summary := "Todo scan finished.",
            doc := .arr [{ id := some "b", title := some "B", due_at := some "2025-06-05 09:00",
                           status := some "done", action := some { type := some "note" },
                           done_at := some "2025-06-05T09:30:00+08:00",
                           result := some "Logged todo action." }],
            wrote := false, logs := [] } :=
  C7_scan_idempotent_single_write.2.2 envNone fsAll shEcho nowJ
    [{ id := some "b", title := some "B", due_at := some "2025-06-05 09:00",
       status := some "open", action := some { type := some "note" } }]
    (by
      intro t ht hp
      simp only [List.mem_singleton] at ht
      subst ht
      rfl)

end SchedulerAgent
